import Mathlib

/-!
# Card validator: shallow embedding and verification

Shallow embedding of the `card-validator` repository's core validation
logic, and proofs about it.

The repository file `src/domain/services/cards.service.ts` contains two
revisions of `CardsValidatorService`:
* the first revision's `validateCardNumber` (lines 55-71) reverses the
  digit list before folding and reduces doubled digits with `cur * 2 - 9`;
* the second revision's `validateCardNumber` (lines 127-143) folds the
  digit list as given (no reverse) and reduces doubled digits with
  `(cur * 2) % 10 + 1`.
The second (no-reverse) revision is the reference behavior: it is the one
the repository's unit tests (`__tests__/services/cards.service.spec.ts`)
pass against, and the one the spec designates. Both are embedded below.

JavaScript semantics modelled explicitly:
* JS strings are sequences of UTF-16 code units: `String.prototype.length`
  counts code units and `split('')` yields one-code-unit strings, so an
  astral character contributes two (surrogate) units. `jsUnits` and
  `jsLength` model this over Lean strings (sequences of code points).
* `split('').map(Number)` maps each code unit through the JS `Number`
  conversion: a decimal digit yields its value, an ECMAScript
  `StrWhiteSpaceChar` yields `0` (JS trims whitespace, and
  `Number('') === 0`), and any other unit — a lone surrogate included —
  yields `NaN`. We model a JS number that may be `NaN` as `Option Nat`,
  with `none` for `NaN`; `NaN` is absorbing under arithmetic, and
  `NaN % 10 !== 0` evaluates to `true`.
* `Date.prototype.getMonth()` is 0-based (January = 0); we carry the
  current date as an explicit clock record with the 0-based month.
* thrown `CardValidationException`s become `Except.error` carrying the
  exception's message string.
-/

/-- The current date as the service observes it: `year` models
`Date.prototype.getFullYear()` and `month0` models
`Date.prototype.getMonth()`, which is 0-based (January = 0, December = 11). -/
structure CurrentDate where
  year : Nat
  month0 : Nat
  deriving Repr, DecidableEq

/-- `CardValidationRequestDto` (src/application/dtos/cards.dto.ts): a card
number string and an expiry year/month pair. The DTO layer coerces
`expiryYear`/`expiryMonth` to numbers and range-checks them
(year ≥ 1900, month in 1..12); the service itself reads them as given. -/
structure CardValidationRequestDto where
  cardNumber : String
  expiryYear : Nat
  expiryMonth : Nat
  deriving Repr, DecidableEq

/-- The code points of the ECMAScript `StrWhiteSpaceChar` class, which
`Number` trims: `WhiteSpace` (TAB, VT, FF, SP, NBSP, ZWNBSP and the
Unicode Space_Separator category: U+1680, U+2000-U+200A, U+202F, U+205F,
U+3000) together with `LineTerminator` (LF, CR, LS U+2028, PS U+2029). -/
def jsWhitespaceCodes : List Nat :=
  [9, 10, 11, 12, 13, 32, 160, 5760, 8192, 8193, 8194, 8195, 8196, 8197,
   8198, 8199, 8200, 8201, 8202, 8232, 8233, 8239, 8287, 12288, 65279]

/-- The JS `Number` conversion applied to a one-character string holding
the code point `c`: a decimal digit yields its value; a
`StrWhiteSpaceChar` is trimmed, and `Number('')` is `0`; every other
character yields `NaN`, modelled as `none`. -/
def toNumber (c : Char) : Option Nat :=
  if c.isDigit then some (c.toNat - 48)
  else if c.toNat ∈ jsWhitespaceCodes then some 0
  else none

/-- The UTF-16 encoding of one code point, as JS strings store it: a
basic-plane code point is one code unit; an astral code point
(at least U+10000) is a surrogate pair of two code units. -/
def utf16Units (c : Char) : List Nat :=
  if c.toNat < 65536 then [c.toNat]
  else [55296 + (c.toNat - 65536) / 1024, 56320 + (c.toNat - 65536) % 1024]

/-- The UTF-16 code units of a string — what JS `split('')` walks and
`String.prototype.length` counts. -/
def jsUnits (s : String) : List Nat :=
  s.data.flatMap utf16Units

/-- JS `String.prototype.length`: the number of UTF-16 code units. -/
def jsLength (s : String) : Nat :=
  (jsUnits s).length

/-- The JS `Number` conversion applied to a one-code-unit string, as in
`cardNumber.split('').map(Number)`: a digit unit yields its value, a
`StrWhiteSpaceChar` unit yields `0`, and every other unit — including a
lone surrogate half of an astral character — yields `NaN`. -/
def toNumberUnit (u : Nat) : Option Nat :=
  if 48 ≤ u ∧ u ≤ 57 then some (u - 48)
  else if u ∈ jsWhitespaceCodes then some 0
  else none

/-- One step of the reducer in the second (no-reverse) revision's
`validateCardNumber` (cards.service.ts lines 129-137): at an odd index the
digit is added unchanged; at an even index it is doubled, reduced via
`(cur * 2) % 10 + 1` when the doubled value exceeds 9. A `NaN` accumulator
or element (`none`) makes the result `NaN`. -/
def luhnStep (acc : Option Nat) (cur : Option Nat) (index : Nat) : Option Nat :=
  match acc, cur with
  | some a, some c =>
      if index % 2 = 1 then some (a + c)
      else if c * 2 > 9 then some (a + c * 2 % 10 + 1)
      else some (a + c * 2)
  | _, _ => none

/-- One step of the reducer in the first (reversed) revision's
`validateCardNumber` (cards.service.ts lines 57-65): identical to
`luhnStep` except the doubled value is reduced via `cur * 2 - 9`. -/
def luhnStepReversed (acc : Option Nat) (cur : Option Nat) (index : Nat) : Option Nat :=
  match acc, cur with
  | some a, some c =>
      if index % 2 = 1 then some (a + c)
      else if c * 2 > 9 then some (a + (c * 2 - 9))
      else some (a + c * 2)
  | _, _ => none

/-- `Array.prototype.reduce` with the element index threaded through, as
both revisions use it: `reduceIdx f acc i l` folds `l` left to right,
calling `f` with the accumulator, the element, and its index. -/
def reduceIdx (f : Option Nat → Option Nat → Nat → Option Nat) :
    Option Nat → Nat → List (Option Nat) → Option Nat
  | acc, _, [] => acc
  | acc, i, x :: xs => reduceIdx f (f acc x i) (i + 1) xs

/-- The Luhn sum of the second revision (cards.service.ts line 129):
`nums.reduce(..., 0)` over the numbers in source order. -/
def luhnSum (nums : List (Option Nat)) : Option Nat :=
  reduceIdx luhnStep (some 0) 0 nums

/-- The Luhn sum of the first revision (cards.service.ts line 57):
`nums.reduce(..., 0)` over the reversed list (`.reverse()` on line 56). -/
def luhnSumReversed (nums : List (Option Nat)) : Option Nat :=
  reduceIdx luhnStepReversed (some 0) 0 nums.reverse

/-- The test `sum % 10 !== 0` that guards the throw (cards.service.ts
line 138): the check passes when the sum is a number divisible by 10;
a `NaN` sum satisfies `sum % 10 !== 0` and so fails the check. -/
def luhnOk : Option Nat → Bool
  | some s => s % 10 == 0
  | none => false

/-- `'Invalid card number (failed Luhn algorithm check)'`. -/
def luhnFailedMsg : String := "Invalid card number (failed Luhn algorithm check)"

/-- `'Wrong card number length'`. -/
def wrongLengthMsg : String := "Wrong card number length"

/-- `'Card has expired'`. -/
def expiredMsg : String := "Card has expired"

/-- `validateCardNumber` of the second (no-reverse) revision
(cards.service.ts lines 127-143): `split('')` yields the UTF-16 code
units, each is mapped through `Number`, the reduce runs in source order,
and `luhnFailedMsg` is thrown unless the sum is divisible by 10. -/
def validateCardNumber (dto : CardValidationRequestDto) : Except String Unit :=
  let nums := (jsUnits dto.cardNumber).map toNumberUnit
  let sum := luhnSum nums
  if luhnOk sum then Except.ok () else Except.error luhnFailedMsg

/-- `validateCardNumber` of the first (reversed) revision
(cards.service.ts lines 55-71): `split('')` yields the UTF-16 code units,
each is mapped through `Number`, the list is reversed and reduced, and
`luhnFailedMsg` is thrown unless the sum is divisible by 10. -/
def validateCardNumberReversed (dto : CardValidationRequestDto) : Except String Unit :=
  let nums := (jsUnits dto.cardNumber).map toNumberUnit
  let sum := luhnSumReversed nums
  if luhnOk sum then Except.ok () else Except.error luhnFailedMsg

/-- `permittedCardNumberLength = [13, 15, 16]` (cards.service.ts line 7;
the second revision inlines the same literal on line 117). -/
def permittedCardNumberLength : List Nat := [13, 15, 16]

/-- `validateCardNumberLength` (cards.service.ts lines 44-48 and 114-120,
identical in both revisions): throws `wrongLengthMsg` when
`cardNumber.length` — the number of UTF-16 code units, `jsLength` — is
not 13, 15, or 16. -/
def validateCardNumberLength (dto : CardValidationRequestDto) : Except String Unit :=
  if ¬ permittedCardNumberLength.contains (jsLength dto.cardNumber) then
    Except.error wrongLengthMsg
  else Except.ok ()

/-- `validateDate` (cards.service.ts lines 27-37, identical in both
revisions): valid when `getFullYear() === expiryYear` and
`getMonth() <= expiryMonth` (note: `getMonth()` is 0-based while
`expiryMonth` is 1-based), or `getFullYear() < expiryYear`; otherwise
throws `expiredMsg`. -/
def validateDate (now : CurrentDate) (dto : CardValidationRequestDto) : Except String Unit :=
  if (now.year = dto.expiryYear ∧ now.month0 ≤ dto.expiryMonth) ∨
      now.year < dto.expiryYear then Except.ok ()
  else Except.error expiredMsg

/-- `validate` (cards.service.ts lines 15-20 and 85-90): runs the length
check, then the expiry check, then the Luhn check, each of which may
throw; returns `true` when all three pass. The Luhn check used is the
second (no-reverse) revision's, the reference behavior the repository's
tests pass against. -/
def validate (now : CurrentDate) (dto : CardValidationRequestDto) : Except String Bool := do
  validateCardNumberLength dto
  validateDate now dto
  validateCardNumber dto
  return true

/-- The digit values of a card-number string, leftmost first
(`'0'` has code point 48). -/
def digitVals (s : String) : List Nat :=
  s.data.map fun c => c.toNat - 48

/-- The Luhn walk exactly as the spec words it: walk the digits left to
right with position index starting at 0 (no reversing); double each digit
at an even index, reducing by subtracting 9 when the doubled value
exceeds 9; keep each digit at an odd index unchanged; sum the results.
`specLuhnWalk i ds` is the walk over `ds` whose first digit sits at
index `i`. -/
def specLuhnWalk : Nat → List Nat → Nat
  | _, [] => 0
  | i, d :: ds =>
      (if i % 2 = 0 then (if d * 2 > 9 then d * 2 - 9 else d * 2) else d) +
        specLuhnWalk (i + 1) ds

/-- The spec's Luhn sum: the walk started at index 0. -/
def specLuhnSum (ds : List Nat) : Nat := specLuhnWalk 0 ds

/-- The doubled-digit reduction formula of the second revision
(cards.service.ts line 133): `(cur * 2) % 10 + 1`. -/
def reduceDoubledMod (c : Nat) : Nat := c * 2 % 10 + 1

/-- The doubled-digit reduction formula of the first revision
(cards.service.ts line 61): `cur * 2 - 9`. -/
def reduceDoubledSub (c : Nat) : Nat := c * 2 - 9

/-- The shared reducer shape of both revisions, abstracted over the
doubled-digit reduction formula applied when `cur * 2 > 9`. -/
def luhnStepWith (reduce : Nat → Nat) (acc cur : Option Nat) (index : Nat) : Option Nat :=
  match acc, cur with
  | some a, some c =>
      if index % 2 = 1 then some (a + c)
      else if c * 2 > 9 then some (a + reduce c)
      else some (a + c * 2)
  | _, _ => none

/-- The Luhn sum (in source order, no reversing) with an abstracted
doubled-digit reduction formula. -/
def luhnSumWith (reduce : Nat → Nat) (nums : List (Option Nat)) : Option Nat :=
  reduceIdx (luhnStepWith reduce) (some 0) 0 nums

/-- The errors the interceptor
(src/domain/interceptors/cards-response.interceptor.ts) distinguishes with
`instanceof`: a `CardValidationException` thrown by the service, a
`BadRequestException` thrown by the framework's validation pipe before the
controller runs, or anything else. -/
inductive JsError where
  | cardValidation (message : String)
  | badRequest (messages : List String)
  | other
  deriving Repr, DecidableEq

/-- The `error` object of the JSON error envelope:
`{ code: <number>, message: <string> }`. -/
structure ErrorBody where
  code : Nat
  message : String
  deriving Repr, DecidableEq

/-- What `CardsResponseInterceptor.intercept` produces for one request:
either a JSON body `{ valid: ..., error?: ... }` written with an explicit
status, or the handler's own data passed through unchanged by the `map`
stage. -/
inductive InterceptResult where
  | jsonBody (status : Nat) (valid : Bool) (error : Option ErrorBody)
  | passthrough (data : Bool)
  deriving Repr, DecidableEq

/-- `CardsResponseInterceptor.intercept`
(src/domain/interceptors/cards-response.interceptor.ts lines 19-59) over
the outcome of the handler, which returns the service's boolean or throws:
`data === true` becomes `200 {valid: true}`; other returned data is passed
through unchanged; a `CardValidationException` becomes
`400 {valid: false, error: {code: 400, message}}`; a `BadRequestException`
becomes `400` with the violation messages joined by `';'`; any other error
becomes `500 {valid: false, error: {code: 500, message: 'Internal Server
Error'}}`. -/
def intercept : Except JsError Bool → InterceptResult
  | .ok true => .jsonBody 200 true none
  | .ok d => .passthrough d
  | .error (.cardValidation msg) => .jsonBody 400 false (some ⟨400, msg⟩)
  | .error (.badRequest msgs) =>
      .jsonBody 400 false (some ⟨400, String.intercalate ";" msgs⟩)
  | .error .other => .jsonBody 500 false (some ⟨500, "Internal Server Error"⟩)

/-! ## Helper lemmas -/

/-- Evaluating one reducer step of the no-reverse revision on plain
numbers. -/
theorem luhnStep_eval (a d i : Nat) :
    luhnStep (some a) (some d) i =
      some (a + (if i % 2 = 1 then d else if d * 2 > 9 then d * 2 % 10 + 1 else d * 2)) := by
  simp only [luhnStep]
  split_ifs <;> rfl

/-- A `NaN` element makes the step `NaN`. -/
theorem luhnStep_cur_none (acc : Option Nat) (i : Nat) : luhnStep acc none i = none := by
  cases acc <;> rfl

/-- A `NaN` accumulator stays `NaN` through one step. -/
theorem luhnStep_acc_none (cur : Option Nat) (i : Nat) : luhnStep none cur i = none := by
  cases cur <;> rfl

/-- A `NaN` accumulator stays `NaN` through the whole reduce. -/
theorem reduceIdx_luhnStep_none (l : List (Option Nat)) :
    ∀ i : Nat, reduceIdx luhnStep none i l = none := by
  induction l with
  | nil => intro i; rfl
  | cons x xs ih => intro i; rw [reduceIdx, luhnStep_acc_none]; exact ih (i + 1)

/-- One `NaN` element anywhere makes the whole reduce `NaN`. -/
theorem reduceIdx_luhnStep_mem_none (l : List (Option Nat)) :
    ∀ (acc : Option Nat) (i : Nat), none ∈ l → reduceIdx luhnStep acc i l = none := by
  induction l with
  | nil => intro acc i h; cases h
  | cons x xs ih =>
    intro acc i h
    rcases List.mem_cons.mp h with hx | hx
    · rw [reduceIdx, ← hx, luhnStep_cur_none]
      exact reduceIdx_luhnStep_none xs (i + 1)
    · exact ih _ _ hx

/-- A decimal digit character has value at most 9. -/
theorem digitVal_le_9 {c : Char} (h : c.isDigit) : c.toNat - 48 ≤ 9 := by
  simp only [Char.isDigit, Bool.and_eq_true, decide_eq_true_eq, ge_iff_le] at h
  have h2 : c.val.toNat ≤ 57 := h.2
  simp only [Char.toNat]
  omega

/-- JS `Number` on a digit character yields its value. -/
theorem toNumber_of_isDigit {c : Char} (h : c.isDigit) : toNumber c = some (c.toNat - 48) := by
  simp [toNumber, h]

/-- A digit character's code point lies in 48..57. -/
theorem toNat_le_of_isDigit {c : Char} (h : c.isDigit) : 48 ≤ c.toNat ∧ c.toNat ≤ 57 := by
  simp only [Char.isDigit, Bool.and_eq_true, decide_eq_true_eq, ge_iff_le] at h
  exact ⟨h.1, h.2⟩

/-- A code point in 48..57 is a digit character. -/
theorem isDigit_of_toNat (c : Char) (h1 : 48 ≤ c.toNat) (h2 : c.toNat ≤ 57) : c.isDigit := by
  simp only [Char.isDigit, Bool.and_eq_true, decide_eq_true_eq, ge_iff_le]
  exact ⟨h1, h2⟩

/-- Every code point is below U+110000. -/
theorem char_toNat_lt (c : Char) : c.toNat < 1114112 := by
  show c.val.toNat < 1114112
  have hv : c.val.toNat < 55296 ∨ (57343 < c.val.toNat ∧ c.val.toNat < 1114112) := c.valid
  omega

/-- A digit character is its own single UTF-16 code unit. -/
theorem utf16Units_of_isDigit {c : Char} (h : c.isDigit) : utf16Units c = [c.toNat] := by
  have hb := toNat_le_of_isDigit h
  unfold utf16Units
  rw [if_pos (by omega)]

/-- Over digit characters, the UTF-16 code units are the code points. -/
theorem flatMap_utf16_digits (l : List Char) :
    (∀ c ∈ l, c.isDigit) → l.flatMap utf16Units = l.map Char.toNat := by
  induction l with
  | nil => intro _; rfl
  | cons c cs ih =>
    intro h
    rw [List.flatMap_cons, utf16Units_of_isDigit (h c (by simp)), List.map_cons,
      ih fun x hx => h x (by simp [hx])]
    rfl

/-- On an all-digit string, the JS length is the character count. -/
theorem jsLength_of_digits (s : String) (h : ∀ c ∈ s.data, c.isDigit) :
    jsLength s = s.length := by
  rw [jsLength, jsUnits, flatMap_utf16_digits _ h, List.length_map]
  rfl

/-- JS `Number` on a digit character's code unit yields its value. -/
theorem toNumberUnit_toNat_of_isDigit {c : Char} (h : c.isDigit) :
    toNumberUnit c.toNat = some (c.toNat - 48) := by
  unfold toNumberUnit
  rw [if_pos (toNat_le_of_isDigit h)]

/-- JS `Number(char)` being `NaN` forces some UTF-16 code unit of the
character — the character itself in the basic plane, its high surrogate
otherwise — to convert to `NaN`. -/
theorem exists_unit_none {c : Char} (h : toNumber c = none) :
    ∃ u ∈ utf16Units c, toNumberUnit u = none := by
  unfold toNumber at h
  split_ifs at h with h1 h2
  by_cases hb : c.toNat < 65536
  · refine ⟨c.toNat, ?_, ?_⟩
    · unfold utf16Units
      rw [if_pos hb]
      simp
    · unfold toNumberUnit
      rw [if_neg ?_, if_neg h2]
      intro hcon
      exact h1 (isDigit_of_toNat c hcon.1 hcon.2)
  · have hv : c.toNat < 1114112 := char_toNat_lt c
    refine ⟨55296 + (c.toNat - 65536) / 1024, ?_, ?_⟩
    · unfold utf16Units
      rw [if_neg hb]
      simp
    · have hnd : ¬ (48 ≤ 55296 + (c.toNat - 65536) / 1024 ∧
          55296 + (c.toNat - 65536) / 1024 ≤ 57) := by omega
      have hnw : 55296 + (c.toNat - 65536) / 1024 ∉ jsWhitespaceCodes := by
        intro hmem
        have hle : 55296 + (c.toNat - 65536) / 1024 ≤ 56319 := by omega
        simp [jsWhitespaceCodes] at hmem
        omega
      unfold toNumberUnit
      rw [if_neg hnd, if_neg hnw]

/-- The accumulator-threading reduce of the no-reverse revision computes
the spec's left-to-right walk, for digit values. -/
theorem reduceIdx_luhnStep_digits (ds : List Nat) :
    ∀ i a : Nat, (∀ d ∈ ds, d ≤ 9) →
      reduceIdx luhnStep (some a) i (ds.map some) = some (a + specLuhnWalk i ds) := by
  induction ds with
  | nil => intro i a _; simp [reduceIdx, specLuhnWalk]
  | cons d ds ih =>
    intro i a hds
    have hd : d ≤ 9 := hds d (by simp)
    have hrest : ∀ x ∈ ds, x ≤ 9 := fun x hx => hds x (by simp [hx])
    rw [List.map_cons, reduceIdx, luhnStep_eval, ih (i + 1) _ hrest, specLuhnWalk]
    have hXY : (if i % 2 = 1 then d else if d * 2 > 9 then d * 2 % 10 + 1 else d * 2) =
        (if i % 2 = 0 then (if d * 2 > 9 then d * 2 - 9 else d * 2) else d) := by
      rcases Nat.mod_two_eq_zero_or_one i with hi | hi
      · simp [hi]
        split <;> omega
      · simp [hi]
    rw [hXY, Nat.add_assoc]

/-- On an all-digit string, mapping through JS `Number` yields the digit
values. -/
theorem map_toNumber_of_digits (s : String) (h : ∀ c ∈ s.data, c.isDigit) :
    s.data.map toNumber = (digitVals s).map some := by
  simp only [digitVals, List.map_map]
  refine List.map_congr_left fun c hc => ?_
  exact toNumber_of_isDigit (h c hc)

/-- On an all-digit string, mapping the UTF-16 code units through JS
`Number` yields the digit values. -/
theorem map_toNumberUnit_of_digits (s : String) (h : ∀ c ∈ s.data, c.isDigit) :
    (jsUnits s).map toNumberUnit = (digitVals s).map some := by
  rw [jsUnits, flatMap_utf16_digits _ h]
  simp only [digitVals, List.map_map]
  refine List.map_congr_left fun c hc => ?_
  exact toNumberUnit_toNat_of_isDigit (h c hc)

/-- On an all-digit string, the code's Luhn sum is the spec's walk. -/
theorem luhnSum_of_digits (s : String) (h : ∀ c ∈ s.data, c.isDigit) :
    luhnSum ((jsUnits s).map toNumberUnit) = some (specLuhnSum (digitVals s)) := by
  rw [map_toNumberUnit_of_digits s h, luhnSum, specLuhnSum]
  have hle : ∀ d ∈ digitVals s, d ≤ 9 := by
    intro d hd
    simp only [digitVals, List.mem_map] at hd
    obtain ⟨c, hc, rfl⟩ := hd
    exact digitVal_le_9 (h c hc)
  simpa using reduceIdx_luhnStep_digits (digitVals s) 0 0 hle

/-- The length check succeeds exactly on the permitted lengths. -/
theorem validateCardNumberLength_ok_iff (dto : CardValidationRequestDto) :
    validateCardNumberLength dto = .ok () ↔
      jsLength dto.cardNumber ∈ permittedCardNumberLength := by
  unfold validateCardNumberLength
  split
  · rename_i h
    rw [List.contains, List.elem_iff] at h
    simp [h]
  · rename_i h
    rw [List.contains, List.elem_iff] at h
    simp at h
    simp [h]

/-- The length check either succeeds or throws `wrongLengthMsg`. -/
theorem validateCardNumberLength_cases (dto : CardValidationRequestDto) :
    validateCardNumberLength dto = .ok () ∨
      validateCardNumberLength dto = .error wrongLengthMsg := by
  unfold validateCardNumberLength
  split
  · exact Or.inr rfl
  · exact Or.inl rfl

/-- The expiry check succeeds exactly on the condition the code tests. -/
theorem validateDate_ok_iff (now : CurrentDate) (dto : CardValidationRequestDto) :
    validateDate now dto = .ok () ↔
      ((now.year = dto.expiryYear ∧ now.month0 ≤ dto.expiryMonth) ∨
        now.year < dto.expiryYear) := by
  unfold validateDate
  split
  · rename_i h
    simp [h]
  · rename_i h
    simp [h]

/-- The expiry check either succeeds or throws `expiredMsg`. -/
theorem validateDate_cases (now : CurrentDate) (dto : CardValidationRequestDto) :
    validateDate now dto = .ok () ∨ validateDate now dto = .error expiredMsg := by
  unfold validateDate
  split
  · exact Or.inl rfl
  · exact Or.inr rfl

/-- The Luhn check either succeeds or throws `luhnFailedMsg`. -/
theorem validateCardNumber_cases (dto : CardValidationRequestDto) :
    validateCardNumber dto = .ok () ∨ validateCardNumber dto = .error luhnFailedMsg := by
  simp only [validateCardNumber]
  split
  · exact Or.inl rfl
  · exact Or.inr rfl

/-- The Luhn check succeeds exactly when the sum passes `luhnOk`. -/
theorem validateCardNumber_ok_iff (dto : CardValidationRequestDto) :
    validateCardNumber dto = .ok () ↔
      luhnOk (luhnSum ((jsUnits dto.cardNumber).map toNumberUnit)) = true := by
  simp only [validateCardNumber]
  split
  · rename_i h
    simp [h]
  · rename_i h
    simp [h]

/-- `validate` is the sequential composition of the three checks, each
short-circuiting with its own error. -/
theorem validate_unfold (now : CurrentDate) (dto : CardValidationRequestDto) :
    validate now dto =
      (match validateCardNumberLength dto with
       | .error e => .error e
       | .ok _ =>
         match validateDate now dto with
         | .error e => .error e
         | .ok _ =>
           match validateCardNumber dto with
           | .error e => .error e
           | .ok _ => .ok true) := by
  show (validateCardNumberLength dto).bind _ = _
  cases validateCardNumberLength dto with
  | error e => rfl
  | ok u =>
    cases u
    show (validateDate now dto).bind _ = _
    cases validateDate now dto with
    | error e => rfl
    | ok u =>
      cases u
      show (validateCardNumber dto).bind _ = _
      cases validateCardNumber dto with
      | error e => rfl
      | ok u => cases u; rfl

/-- `validate` returns `true` exactly when all three checks pass. -/
theorem validate_ok_iff (now : CurrentDate) (dto : CardValidationRequestDto) :
    validate now dto = .ok true ↔
      (validateCardNumberLength dto = .ok () ∧ validateDate now dto = .ok () ∧
        validateCardNumber dto = .ok ()) := by
  rw [validate_unfold]
  rcases validateCardNumberLength_cases dto with h1 | h1
  · rw [h1]
    rcases validateDate_cases now dto with h2 | h2
    · rw [h2]
      rcases validateCardNumber_cases dto with h3 | h3
      · rw [h3]
        simp [h1, h2, h3]
      · rw [h3]
        simp [h1, h2, h3]
    · rw [h2]
      simp [h1, h2]
  · rw [h1]
    simp [h1]

/-- A step over a `NaN` element is `NaN` for either reduction formula. -/
theorem luhnStepWith_cur_none (reduce : Nat → Nat) (acc : Option Nat) (i : Nat) :
    luhnStepWith reduce acc none i = none := by
  cases acc <;> rfl

/-- The no-reverse revision's step is the abstracted step instantiated
with its `(cur * 2) % 10 + 1` formula. -/
theorem luhnStep_eq_with_mod (acc cur : Option Nat) (i : Nat) :
    luhnStep acc cur i = luhnStepWith reduceDoubledMod acc cur i := by
  cases acc <;> cases cur <;>
    simp only [luhnStep, luhnStepWith, reduceDoubledMod] <;>
    split_ifs <;> simp [Nat.add_assoc]

/-- Reduces with pointwise-equal step functions agree. -/
theorem reduceIdx_congr (f g : Option Nat → Option Nat → Nat → Option Nat)
    (hfg : ∀ acc x i, f acc x i = g acc x i) (l : List (Option Nat)) :
    ∀ (acc : Option Nat) (i : Nat), reduceIdx f acc i l = reduceIdx g acc i l := by
  induction l with
  | nil => intro acc i; rfl
  | cons x xs ih => intro acc i; rw [reduceIdx, reduceIdx, hfg]; exact ih _ _

/-- On a digit value (at most 9), the two reduction formulas take the
same step. -/
theorem luhnStepWith_mod_eq_sub (acc : Option Nat) (c i : Nat) (hc : c ≤ 9) :
    luhnStepWith reduceDoubledMod acc (some c) i =
      luhnStepWith reduceDoubledSub acc (some c) i := by
  cases acc with
  | none => rfl
  | some a =>
    simp only [luhnStepWith, reduceDoubledMod, reduceDoubledSub]
    split_ifs with h1 h2 <;> first | rfl | exact congrArg some (by omega)

/-- JS `Number` of a character is `NaN` or a value at most 9. -/
theorem toNumber_bound (c : Char) (v : Nat) (h : toNumber c = some v) : v ≤ 9 := by
  unfold toNumber at h
  split_ifs at h with h1 h2
  · cases h
    exact digitVal_le_9 h1
  · cases h
    exact Nat.zero_le 9

/-- Over a list of `NaN`-or-digit values, the two reduction formulas give
the same reduce. -/
theorem reduceIdx_mod_eq_sub_of_bounded (l : List (Option Nat)) :
    ∀ (acc : Option Nat) (i : Nat), (∀ x ∈ l, ∀ v, x = some v → v ≤ 9) →
      reduceIdx (luhnStepWith reduceDoubledMod) acc i l =
        reduceIdx (luhnStepWith reduceDoubledSub) acc i l := by
  induction l with
  | nil => intro acc i _; rfl
  | cons x xs ih =>
    intro acc i hb
    have hxs : ∀ x ∈ xs, ∀ v, x = some v → v ≤ 9 := fun y hy => hb y (by simp [hy])
    rw [reduceIdx, reduceIdx]
    cases x with
    | none => rw [luhnStepWith_cur_none, luhnStepWith_cur_none]; exact ih _ _ hxs
    | some c =>
      rw [luhnStepWith_mod_eq_sub acc c i (hb (some c) (by simp) c rfl)]
      exact ih _ _ hxs

/-! ## Claim theorems -/

/-- Claim C1. For every all-digit `cardNumber` of permitted length, the
no-reverse revision's Luhn step walks the digits left to right with the
position index starting at 0 (no reversing), doubles each digit at an
even index (reducing by subtracting 9 when the doubled value exceeds 9),
keeps each digit at an odd index unchanged, and passes exactly when the
resulting sum (`specLuhnSum`, written from the spec's words) is divisible
by 10; when the sum is not divisible by 10, `validate` (given the expiry
check also passes) fails with the `LUHN_FAILED` reason. -/
theorem c1_luhn_left_to_right (now : CurrentDate) (dto : CardValidationRequestDto)
    (hlen : dto.cardNumber.length ∈ permittedCardNumberLength)
    (hdig : ∀ c ∈ dto.cardNumber.data, c.isDigit)
    (hdate : validateDate now dto = .ok ()) :
    (validateCardNumber dto = .ok () ↔ specLuhnSum (digitVals dto.cardNumber) % 10 = 0) ∧
    (validate now dto = .ok true ↔ specLuhnSum (digitVals dto.cardNumber) % 10 = 0) ∧
    (specLuhnSum (digitVals dto.cardNumber) % 10 ≠ 0 →
      validate now dto = .error luhnFailedMsg) := by
  have hsum := luhnSum_of_digits dto.cardNumber hdig
  have hcn : validateCardNumber dto = .ok () ↔
      specLuhnSum (digitVals dto.cardNumber) % 10 = 0 := by
    rw [validateCardNumber_ok_iff, hsum]
    simp [luhnOk]
  have hlen' : validateCardNumberLength dto = .ok () :=
    (validateCardNumberLength_ok_iff dto).mpr
      (by rw [jsLength_of_digits _ hdig]; exact hlen)
  refine ⟨hcn, ?_, ?_⟩
  · rw [validate_ok_iff, ← hcn]
    simp [hlen', hdate]
  · intro hs
    have hfail : validateCardNumber dto = .error luhnFailedMsg := by
      rcases validateCardNumber_cases dto with h | h
      · exact absurd (hcn.mp h) hs
      · exact h
    rw [validate_unfold, hlen', hdate, hfail]

/-- Witness for C1 at the 16-digit string "4111111111111111" with the
clock at October 2026 and expiry December 2027. -/
theorem c1_witness :
    (("4111111111111111" : String).length ∈ permittedCardNumberLength ∧
      (∀ c ∈ ("4111111111111111" : String).data, c.isDigit) ∧
      validateDate ⟨2026, 9⟩ ⟨"4111111111111111", 2027, 12⟩ = .ok ()) ∧
    (validate ⟨2026, 9⟩ ⟨"4111111111111111", 2027, 12⟩ = .ok true ↔
      specLuhnSum (digitVals "4111111111111111") % 10 = 0) := by
  have h := c1_luhn_left_to_right ⟨2026, 9⟩ ⟨"4111111111111111", 2027, 12⟩
    (by decide) (by decide) (by rfl)
  exact ⟨⟨by decide, by decide, by rfl⟩, h.2.1⟩

/-- Claim C2 (code bug). With the current date October 2026
(`getFullYear() = 2026`, `getMonth() = 9`) the 1-based current month is
M = 10, so per the claim (and the repository's own unit test
"should throw ValidationException for expired card (current year, past
month)") a card expiring September 2026 (`expiryYear = 2026`,
`expiryMonth = 9 < M`) must be rejected as `EXPIRED`; the code instead
accepts it, because `validateDate` compares the 0-based `getMonth()`
against the 1-based `expiryMonth` with `<=`. The second conjunct records
the acceptance condition the code actually implements:
`expiryYear > Y`, or `expiryYear = Y` and `expiryMonth ≥ getMonth() = M - 1`. -/
theorem c2_expiry_off_by_one :
    validate ⟨2026, 9⟩ ⟨"4111111111111111", 2026, 9⟩ = .ok true ∧
    (∀ (now : CurrentDate) (dto : CardValidationRequestDto),
      validateDate now dto = .ok () ↔
        ((now.year = dto.expiryYear ∧ now.month0 ≤ dto.expiryMonth) ∨
          now.year < dto.expiryYear)) :=
  ⟨rfl, validateDate_ok_iff⟩

/-- Claim C3. `validate` performs its three checks in the fixed order
length, then expiry, then Luhn, short-circuits at the first failing check
and reports exactly that check's reason (no aggregation), and returns
`true` exactly when all three checks pass. -/
theorem c3_fixed_order_short_circuit (now : CurrentDate) (dto : CardValidationRequestDto) :
    validate now dto =
      (match validateCardNumberLength dto with
       | .error e => .error e
       | .ok _ =>
         match validateDate now dto with
         | .error e => .error e
         | .ok _ =>
           match validateCardNumber dto with
           | .error e => .error e
           | .ok _ => .ok true) ∧
    (validate now dto = .ok true ↔
      validateCardNumberLength dto = .ok () ∧ validateDate now dto = .ok () ∧
        validateCardNumber dto = .ok ()) :=
  ⟨validate_unfold now dto, validate_ok_iff now dto⟩

/-- Counterexample to C4 as stated. The 16-character string
"411111111111aaaa" contains only 12 digits — a digit count outside
{13, 15, 16} — yet `validate` does not fail with the `WRONG_LENGTH`
reason: the length check counts characters, so it passes, and the call
fails at the Luhn step instead. -/
theorem c4_wrong_length_counterexample :
    ("411111111111aaaa".data.filter Char.isDigit).length = 12 ∧
    ¬ (12 ∈ permittedCardNumberLength) ∧
    validate ⟨2026, 9⟩ ⟨"411111111111aaaa", 2027, 12⟩ = .error luhnFailedMsg ∧
    luhnFailedMsg ≠ wrongLengthMsg :=
  ⟨by decide, by decide, rfl, by decide⟩

/-- Claim C4 as amended: for every `cardNumber` whose JS string length —
the UTF-16 code-unit count, `jsLength` — is not 13, 15, or 16, including
the empty string, `validate` fails with the `WRONG_LENGTH` reason,
regardless of Luhn or expiry validity. -/
theorem c4_wrong_length_amended (now : CurrentDate) (dto : CardValidationRequestDto)
    (h : jsLength dto.cardNumber ∉ permittedCardNumberLength) :
    validate now dto = .error wrongLengthMsg := by
  have h1 : validateCardNumberLength dto = .error wrongLengthMsg := by
    rcases validateCardNumberLength_cases dto with h' | h'
    · exact absurd ((validateCardNumberLength_ok_iff dto).mp h') h
    · exact h'
  rw [validate_unfold, h1]

/-- Witness for the amended C4 at the empty string. -/
theorem c4_wrong_length_witness :
    jsLength "" ∉ permittedCardNumberLength ∧
    validate ⟨2026, 9⟩ ⟨"", 2027, 12⟩ = .error wrongLengthMsg :=
  ⟨by decide, c4_wrong_length_amended ⟨2026, 9⟩ ⟨"", 2027, 12⟩ (by decide)⟩

/-- Claim C5. The Luhn check passes on "4111111111111111" and
"0000000000000000" and fails on "4111111111111112" and
"1111111111111111"; with a non-expired date (December 2027, clock at
October 2026), `validate` returns `true` for the first two and fails with
the `LUHN_FAILED` reason for the last two. -/
theorem c5_luhn_vectors :
    validateCardNumber ⟨"4111111111111111", 2027, 12⟩ = .ok () ∧
    validateCardNumber ⟨"0000000000000000", 2027, 12⟩ = .ok () ∧
    validateCardNumber ⟨"4111111111111112", 2027, 12⟩ = .error luhnFailedMsg ∧
    validateCardNumber ⟨"1111111111111111", 2027, 12⟩ = .error luhnFailedMsg ∧
    validate ⟨2026, 9⟩ ⟨"4111111111111111", 2027, 12⟩ = .ok true ∧
    validate ⟨2026, 9⟩ ⟨"0000000000000000", 2027, 12⟩ = .ok true ∧
    validate ⟨2026, 9⟩ ⟨"4111111111111112", 2027, 12⟩ = .error luhnFailedMsg ∧
    validate ⟨2026, 9⟩ ⟨"1111111111111111", 2027, 12⟩ = .error luhnFailedMsg :=
  ⟨rfl, rfl, rfl, rfl, rfl, rfl, rfl, rfl⟩

/-- Claim C6. The two Luhn implementations in the repository's revisions
are not equivalent: on the all-digit, permitted-length (16) string
"4111111111111111" the no-reverse revision passes while the reversed
revision fails. -/
theorem c6_revisions_disagree :
    ("4111111111111111" : String).length ∈ permittedCardNumberLength ∧
    (∀ c ∈ ("4111111111111111" : String).data, c.isDigit) ∧
    validateCardNumber ⟨"4111111111111111", 2027, 12⟩ = .ok () ∧
    validateCardNumberReversed ⟨"4111111111111111", 2027, 12⟩ = .error luhnFailedMsg :=
  ⟨by decide, by decide, rfl, rfl⟩

/-- Claim C7. At the HTTP boundary: a successful core validation
(the handler returned `true`) yields status 200 with body
`{valid: true}`; a core validation failure (a `CardValidationException`)
yields status 400 with body
`{valid: false, error: {code: 400, message: <reason text>}}` where the
message is the failing step's; and an uncaught/unexpected failure —
anything that is neither a `CardValidationException` nor a framework
`BadRequestException` (the pre-validation failures the spec's boundary
layer maps to 400) — yields status 500 with body
`{valid: false, error: {code: 500, message: "Internal Server Error"}}`. -/
theorem c7_http_mapping :
    intercept (.ok true) = .jsonBody 200 true none ∧
    (∀ msg : String, intercept (.error (.cardValidation msg)) =
      .jsonBody 400 false (some ⟨400, msg⟩)) ∧
    intercept (.error .other) =
      .jsonBody 500 false (some ⟨500, "Internal Server Error"⟩) :=
  ⟨rfl, fun _ => rfl, rfl⟩

/-- Claim C8. For every digit value at most 9 whose double exceeds 9, the
reduction formula `(2*d) % 10 + 1` of the second revision equals the
`2*d - 9` of the first; hence over any card-number string the Luhn sum is
unchanged whichever of the two formulas the reducer uses. -/
theorem c8_reduction_formulas :
    (∀ d : Nat, d ≤ 9 → d * 2 > 9 → reduceDoubledMod d = reduceDoubledSub d) ∧
    (∀ s : String,
      luhnSum (s.data.map toNumber) = luhnSumWith reduceDoubledMod (s.data.map toNumber) ∧
      luhnSumWith reduceDoubledMod (s.data.map toNumber) =
        luhnSumWith reduceDoubledSub (s.data.map toNumber)) := by
  constructor
  · intro d hd hd9
    simp only [reduceDoubledMod, reduceDoubledSub]
    omega
  · intro s
    constructor
    · rw [luhnSum, luhnSumWith]
      exact reduceIdx_congr _ _ luhnStep_eq_with_mod _ _ _
    · rw [luhnSumWith, luhnSumWith]
      apply reduceIdx_mod_eq_sub_of_bounded
      intro x hx v hxv
      obtain ⟨ch, _, hch⟩ := List.mem_map.mp hx
      exact toNumber_bound ch v (by rw [hch, hxv])

/-- Witness for C8 at the digit 7 and the string "4111111111111111". -/
theorem c8_witness :
    reduceDoubledMod 7 = reduceDoubledSub 7 ∧
    luhnSum ("4111111111111111".data.map toNumber) =
      luhnSumWith reduceDoubledSub ("4111111111111111".data.map toNumber) :=
  ⟨c8_reduction_formulas.1 7 (by decide) (by decide),
    (c8_reduction_formulas.2 "4111111111111111").1.trans
      (c8_reduction_formulas.2 "4111111111111111").2⟩

/-- Claim C9. `validate` never returns `false`: on every input it either
returns `true` or throws a `CardValidationException` carrying one of the
three validation messages; and the interceptor derives the
`{valid: true}` success body exactly from the returned value `true`
(any other returned value is passed through, not turned into a success
body). -/
theorem c9_validate_never_false (now : CurrentDate) (dto : CardValidationRequestDto) :
    (validate now dto = .ok true ∨ validate now dto = .error wrongLengthMsg ∨
      validate now dto = .error expiredMsg ∨ validate now dto = .error luhnFailedMsg) ∧
    intercept (.ok true) = .jsonBody 200 true none ∧
    intercept (.ok false) = .passthrough false := by
  refine ⟨?_, rfl, rfl⟩
  rw [validate_unfold]
  rcases validateCardNumberLength_cases dto with h1 | h1 <;> rw [h1]
  · rcases validateDate_cases now dto with h2 | h2 <;> rw [h2]
    · rcases validateCardNumber_cases dto with h3 | h3 <;> rw [h3]
      · left; rfl
      · right; right; right; rfl
    · right; right; left; rfl
  · right; left; rfl

/-- Counterexample to C10 as stated. The 16-character string of fifteen
zeros followed by a space contains a character that is not a decimal
digit, yet `validate` returns `Valid`: JS `Number(' ')` is `0`, not
`NaN`, so the Luhn sum is 0 and the check passes. -/
theorem c10_nan_counterexample :
    ("000000000000000 " : String).length ∈ permittedCardNumberLength ∧
    (∃ c ∈ ("000000000000000 " : String).data, ¬ c.isDigit) ∧
    validate ⟨2026, 9⟩ ⟨"000000000000000 ", 2027, 12⟩ = .ok true :=
  ⟨by decide, by decide, rfl⟩

/-- Claim C10 as amended: for every `cardNumber` of permitted JS length
(13, 15, or 16 UTF-16 code units) containing at least one character whose
JS `Number` conversion is `NaN` — a character that is neither a decimal
digit nor ECMAScript whitespace; an astral character qualifies through
its surrogate code units — `validate` never returns `Valid`: the Luhn sum
is `NaN`, and whenever the expiry check passes the call fails at the Luhn
step with the `LUHN_FAILED` reason rather than with a malformed-input
error. -/
theorem c10_nan_amended (now : CurrentDate) (dto : CardValidationRequestDto)
    (hlen : jsLength dto.cardNumber ∈ permittedCardNumberLength)
    (hnan : ∃ c ∈ dto.cardNumber.data, toNumber c = none) :
    validate now dto ≠ .ok true ∧
    (validateDate now dto = .ok () → validate now dto = .error luhnFailedMsg) := by
  obtain ⟨c, hc, hcnone⟩ := hnan
  obtain ⟨u, hu, hunone⟩ := exists_unit_none hcnone
  have hmem : none ∈ (jsUnits dto.cardNumber).map toNumberUnit := by
    refine List.mem_map.mpr ⟨u, ?_, hunone⟩
    rw [jsUnits]
    exact List.mem_flatMap.mpr ⟨c, hc, hu⟩
  have hsum : luhnSum ((jsUnits dto.cardNumber).map toNumberUnit) = none := by
    rw [luhnSum]
    exact reduceIdx_luhnStep_mem_none _ _ _ hmem
  have hluhn : validateCardNumber dto = .error luhnFailedMsg := by
    rcases validateCardNumber_cases dto with h | h
    · rw [validateCardNumber_ok_iff, hsum] at h
      simp [luhnOk] at h
    · exact h
  have hlen' : validateCardNumberLength dto = .ok () :=
    (validateCardNumberLength_ok_iff dto).mpr hlen
  constructor
  · intro hok
    obtain ⟨-, -, h3⟩ := (validate_ok_iff now dto).mp hok
    rw [hluhn] at h3
    cases h3
  · intro hdate
    rw [validate_unfold, hlen', hdate, hluhn]

/-- Witness for the amended C10 at a 16-character string containing the
letter a. -/
theorem c10_nan_witness :
    jsLength "4111111111111a11" ∈ permittedCardNumberLength ∧
    validate ⟨2026, 9⟩ ⟨"4111111111111a11", 2027, 12⟩ ≠ .ok true :=
  ⟨by decide,
    (c10_nan_amended ⟨2026, 9⟩ ⟨"4111111111111a11", 2027, 12⟩ (by decide)
      ⟨'a', by decide, by decide⟩).1⟩
